import Mathlib

/-!
# ViSP Kalman filter: state model catalog and filter front end

A verification development for `ViSP/src/math/kalman/vpKalmanFilter.h`.

The header defines the selector `vpStateModel`, the default constructor, the
accessor `getStateModel` and the inline `setStateModel`; these are embedded
from the source.  The base class `vpKalman` and the bodies of `filter` and of
the initializers are not part of the sources: the base class is a record of
the members the specification names plus one component for all others, the
missing bodies are modelled from the specification and marked as such.

Conventions: a C++ method that mutates `*this` becomes a function from the
object before the call to the object after it; a method that may fail returns
the error, if any, next to the object as the call leaves it.  Vectors and
matrices are carried as abstract types `V` and `M`, the remaining base members
as `O`.
-/

set_option autoImplicit false

/-! ## Data model -/

/-- Selector used to set the Kalman filter state model (`vpKalmanFilter::vpStateModel`,
lines 61-79).  The C++ enum has exactly these four enumerators. -/
inductive vpStateModel where
  | stateConstVel_MeasurePos
  | stateConstVelWithColoredNoise_MeasureVel
  | stateConstAccWithColoredNoise_MeasureVel
  | unknown
  deriving DecidableEq, Repr

/-- Modelled from the spec: the base class `vpKalman` (`visp/vpKalman.h` is not part of the
sources).  `size_state` and `size_measure` are the two members assigned by `setStateModel`;
`nsignal` is the channel count, `F`, `H`, `Q`, `R` the system matrices, `Xest` the state
estimate `x` and `Pest` its covariance `P` (spec, section 3); `other` stands for every base
member the specification does not name.  The sizes and the channel count are C++ integers;
`Int` covers every value they can hold. -/
structure vpKalman (V M O : Type) where
  size_state : Int
  size_measure : Int
  nsignal : Int
  F : M
  H : M
  Q : M
  R : M
  Xest : V
  Pest : M
  other : O

/-- The class `vpKalmanFilter : public vpKalman` with its one own member `model`
(line 166). -/
structure vpKalmanFilter (V M O : Type) extends vpKalman V M O where
  model : vpStateModel

/-! ## Operations of the header -/

section Header

variable {V M O : Type}

/-- The inline method `setStateModel` (lines 122-139): stores the model, then the switch
assigns the two sizes. -/
def vpKalmanFilter.setStateModel (self : vpKalmanFilter V M O) (model : vpStateModel) :
    vpKalmanFilter V M O :=
  let self := { self with model := model }
  match model with
  | .stateConstVel_MeasurePos
  | .stateConstVelWithColoredNoise_MeasureVel =>
    let self := { self with size_state := 2 }
    { self with size_measure := 1 }
  | .stateConstAccWithColoredNoise_MeasureVel =>
    let self := { self with size_state := 3 }
    { self with size_measure := 1 }
  | .unknown =>
    let self := { self with size_state := 0 }
    { self with size_measure := 0 }

/-- The default constructor `vpKalmanFilter()` (lines 87-90; Lean cannot reuse the class
name for it): the base-class constructor runs first and leaves `base`; the member `model` is
not initialised and holds some `indeterminate` value; the body then calls
`setStateModel(unknown)`. -/
def vpKalmanFilter.construct (base : vpKalman V M O) (indeterminate : vpStateModel) :
    vpKalmanFilter V M O :=
  vpKalmanFilter.setStateModel { base with model := indeterminate } .unknown

/-- The accessor `getStateModel` (lines 95-97): returns the member `model`; the object is
returned next to the result to record that the (non-const) method does not assign to it. -/
def vpKalmanFilter.getStateModel (self : vpKalmanFilter V M O) :
    vpStateModel × vpKalmanFilter V M O :=
  (self.model, self)

/-- The filter after a finite sequence of `setStateModel` calls, first call first. -/
def vpKalmanFilter.setStateModels (self : vpKalmanFilter V M O) (models : List vpStateModel) :
    vpKalmanFilter V M O :=
  models.foldl vpKalmanFilter.setStateModel self

end Header

/-- The table of the specification (section 3): the pair `(stateSize, measureSize)`
of each model, written from the specification's words. -/
def specSizeTable : vpStateModel → Int × Int
  | .stateConstVel_MeasurePos => (2, 1)
  | .stateConstVelWithColoredNoise_MeasureVel => (2, 1)
  | .stateConstAccWithColoredNoise_MeasureVel => (3, 1)
  | .unknown => (0, 0)

/-! ## The parts whose bodies are not in the sources -/

/-- Modelled from the spec: the linear algebra primitives (section 2, "external/leaf": dense
real-valued vectors and matrices with addition, multiplication, transpose and inversion,
assumed available and not re-specified).  They are taken as parameters over abstract carriers:
`entries` lists the components of a column vector, `identity n` is the `n × n` identity and
`inverse` answers `none` for a matrix it cannot invert. -/
structure vpLinAlg (α V M : Type) where
  entries : V → List α
  vadd : V → V → V
  vsub : V → V → V
  mulVec : M → V → V
  add : M → M → M
  sub : M → M → M
  mul : M → M → M
  transpose : M → M
  identity : Int → M
  inverse : M → Option M

/-- Modelled from the spec: the error taxonomy of section 7 (configuration error, usage
error, numerical error); the sources do not show how `filter` and `initFilter` report
failure. -/
inductive vpKalmanError where
  | configurationError
  | usageError
  | numericalError
  deriving DecidableEq, Repr

/-- Outcome of a `void` method that may fail: the error, if any, next to the object as
the call leaves it. -/
abbrev vpOutcome (V M O : Type) : Type := Except vpKalmanError Unit × vpKalmanFilter V M O

section Missing

variable {α V M O : Type}

/-- Number of components of a column vector. -/
def vpLinAlg.size (LA : vpLinAlg α V M) (v : V) : Int := ((LA.entries v).length : Int)

/-- Modelled from the spec: `stacked-stateSize = channelCount × stateSize` (section 3). -/
def vpKalmanFilter.stackedStateSize (self : vpKalmanFilter V M O) : Int :=
  self.nsignal * self.size_state

/-- Modelled from the spec: `stacked-measureSize = channelCount × measureSize` (section 3). -/
def vpKalmanFilter.stackedMeasureSize (self : vpKalmanFilter V M O) : Int :=
  self.nsignal * self.size_measure

/-- Modelled from the spec: step 1 of `filter` (section 4.3), whose body is not in the
sources.  Predict: `x ← F·x`; `P ← F·P·Fᵀ + Q`, in place and in this order. -/
def vpKalmanFilter.predict (LA : vpLinAlg α V M) (self : vpKalmanFilter V M O) :
    vpKalmanFilter V M O :=
  let self := { self with Xest := LA.mulVec self.F self.Xest }
  { self with Pest := LA.add (LA.mul (LA.mul self.F self.Pest) (LA.transpose self.F)) self.Q }

/-- Modelled from the spec: step 2 of `filter` (section 4.3), whose body is not in the
sources.  Update: `y ← z − H·x`; `S ← H·P·Hᵀ + R`; `K ← P·Hᵀ·S⁻¹`; `x ← x + K·y`;
`P ← (I − K·H)·P`.  A matrix `S` that cannot be inverted is the numerical error of
section 7. -/
def vpKalmanFilter.update (LA : vpLinAlg α V M) (self : vpKalmanFilter V M O) (z : V) :
    vpOutcome V M O :=
  let y := LA.vsub z (LA.mulVec self.H self.Xest)
  let S := LA.add (LA.mul (LA.mul self.H self.Pest) (LA.transpose self.H)) self.R
  match LA.inverse S with
  | none => (.error .numericalError, self)
  | some Sinv =>
    let K := LA.mul (LA.mul self.Pest (LA.transpose self.H)) Sinv
    let self := { self with Xest := LA.vadd self.Xest (LA.mulVec K y) }
    let self := { self with
      Pest := LA.mul (LA.sub (LA.identity self.stackedStateSize) (LA.mul K self.H)) self.Pest }
    (.ok (), self)

/-- Modelled from the spec: the method `filter` (declared at line 98, body not in the
sources).  Section 4.3: it requires `z` to have exactly `stacked-measureSize` components and
the filter to have a model other than `unknown`, otherwise it fails (usage error, section 7);
then it executes predict and update, in order. -/
def vpKalmanFilter.filter (LA : vpLinAlg α V M) (self : vpKalmanFilter V M O) (z : V) :
    vpOutcome V M O :=
  if self.model = .unknown ∨ LA.size z ≠ self.stackedMeasureSize then
    (.error .usageError, self)
  else
    (self.predict LA).update LA z

/-- Modelled from the spec: the three model-specific initializers (declared at lines
146-162, bodies not in the sources; the spec leaves part of their matrices open, section 9).
They are taken as parameters: each maps the filter before the call and its arguments to the
filter after the call. -/
structure vpModelInitializers (α V M O : Type) where
  initStateConstVel_MeasurePos :
    vpKalmanFilter V M O → Int → V → V → α → vpKalmanFilter V M O
  initStateConstVelWithColoredNoise_MeasureVel :
    vpKalmanFilter V M O → Int → V → V → α → vpKalmanFilter V M O
  initStateConstAccWithColoredNoise_MeasureVel :
    vpKalmanFilter V M O → Int → V → V → α → α → vpKalmanFilter V M O

/-- The models the header documents as colored-noise models (lines 67-76). -/
def vpStateModel.coloredNoise : vpStateModel → Bool
  | .stateConstVelWithColoredNoise_MeasureVel => true
  | .stateConstAccWithColoredNoise_MeasureVel => true
  | _ => false

/-- Modelled from the spec: the configuration errors of sections 4.2 and 7 for the arguments
of `initFilter`: model unknown, channel count below one, a negative noise standard deviation,
`|rho| ≥ 1` for a colored-noise model, sampling period not positive.  Scalars (C++ `double`)
are read in a linearly ordered field. -/
def vpKalmanFilter.configurationRejected [LinearOrderedField α] (LA : vpLinAlg α V M)
    (self : vpKalmanFilter V M O) (nsignal : Int) (sigma_state sigma_measure : V)
    (rho dt : α) : Bool :=
  decide (self.model = .unknown) || decide (nsignal < 1)
    || (LA.entries sigma_state).any (fun sigma => decide (sigma < 0))
    || (LA.entries sigma_measure).any (fun sigma => decide (sigma < 0))
    || (self.model.coloredNoise && decide (1 ≤ |rho|))
    || decide (dt ≤ 0)

/-- Modelled from the spec: the generic initializer `initFilter` (declared at lines 140-141,
body not in the sources).  Section 4.2/4.3: it validates the arguments, fails with a
configuration error on a rejected configuration, and otherwise dispatches on the current
model to the matching model-specific initializer. -/
def vpKalmanFilter.initFilter [LinearOrderedField α] (LA : vpLinAlg α V M)
    (inits : vpModelInitializers α V M O) (self : vpKalmanFilter V M O) (nsignal : Int)
    (sigma_state sigma_measure : V) (rho dt : α) : vpOutcome V M O :=
  if self.configurationRejected LA nsignal sigma_state sigma_measure rho dt then
    (.error .configurationError, self)
  else
    match self.model with
    | .stateConstVel_MeasurePos =>
      (.ok (), inits.initStateConstVel_MeasurePos self nsignal sigma_state sigma_measure dt)
    | .stateConstVelWithColoredNoise_MeasureVel =>
      (.ok (), inits.initStateConstVelWithColoredNoise_MeasureVel self nsignal sigma_state
        sigma_measure rho)
    | .stateConstAccWithColoredNoise_MeasureVel =>
      (.ok (), inits.initStateConstAccWithColoredNoise_MeasureVel self nsignal sigma_state
        sigma_measure rho dt)
    | .unknown => (.error .configurationError, self)

end Missing

/-! ## A concrete reading of the primitives: dense row-major matrices -/

namespace Dense

variable {α : Type} [Field α] [DecidableEq α]

/-- Scalar product of two rows. -/
def dot (u v : List α) : α := (List.zipWith (fun a b => a * b) u v).sum

/-- Matrix times column vector. -/
def mulVec (A : List (List α)) (v : List α) : List α := A.map (fun r => dot r v)

/-- Matrix product, rows of `A` against columns of `B`. -/
def mul (A B : List (List α)) : List (List α) :=
  A.map (fun r => B.transpose.map (fun c => dot r c))

/-- Entrywise sum. -/
def add (A B : List (List α)) : List (List α) :=
  List.zipWith (List.zipWith (fun a b => a + b)) A B

/-- Entrywise difference. -/
def sub (A B : List (List α)) : List (List α) :=
  List.zipWith (List.zipWith (fun a b => a - b)) A B

/-- The `n × n` identity matrix. -/
def identity (n : Nat) : List (List α) :=
  (List.range n).map (fun i => (List.range n).map (fun j => if i = j then 1 else 0))

/-- Row `r` minus the multiple of the pivot row `p` that clears column `c` of `r`. -/
def eliminate (c : Nat) (p r : List α) : List α :=
  List.zipWith (fun a b => a - r.getD c 0 * b) r p

/-- Gauss-Jordan elimination on an augmented matrix: `k` columns remain, `c` is the current
column, `done` holds the rows already pivoted (in pivot order), `todo` the others. -/
def gaussJordan : Nat → Nat → List (List α) → List (List α) → Option (List (List α))
  | 0, _, done, _ => some done
  | k + 1, c, done, todo =>
    match todo.find? (fun r => r.getD c 0 ≠ 0) with
    | none => none
    | some p =>
      let q := p.map (fun a => a / p.getD c 0)
      gaussJordan k (c + 1) (done.map (eliminate c q) ++ [q])
        ((todo.erase p).map (eliminate c q))

/-- Inverse of a square matrix by Gauss-Jordan elimination of `[A | I]`; `none` when `A` is
not square or has no inverse. -/
def inverse (A : List (List α)) : Option (List (List α)) :=
  if A.all (fun r => r.length = A.length) then
    (gaussJordan A.length 0 [] (List.zipWith (fun r e => r ++ e) A (identity A.length))).map
      (fun rows => rows.map (List.drop A.length))
  else
    none

/-- Modelled from the spec: one instance of the linear algebra primitives, dense row-major
matrices over a field with exact arithmetic; the closed examples run the filter on it. -/
def linAlg : vpLinAlg α (List α) (List (List α)) where
  entries := fun v => v
  vadd := List.zipWith (fun a b => a + b)
  vsub := List.zipWith (fun a b => a - b)
  mulVec := mulVec
  add := add
  sub := sub
  mul := mul
  transpose := List.transpose
  identity := fun n => identity n.toNat
  inverse := inverse

end Dense

/-! ## Inputs of the closed examples -/

namespace Example

/-- A base object as some base-class constructor could leave it: one channel, constant
velocity with period 1 (`F`), position measured (`H`), unit noise, zero state, identity
covariance; the sizes hold leftovers. -/
def base1 : vpKalman (List ℚ) (List (List ℚ)) Unit where
  size_state := 7
  size_measure := 5
  nsignal := 1
  F := [[1, 1], [0, 1]]
  H := [[1, 0]]
  Q := [[0, 0], [0, 1]]
  R := [[1]]
  Xest := [0, 0]
  Pest := [[1, 0], [0, 1]]
  other := ()

/-- One channel of `stateConstVel_MeasurePos`, selected on a default-constructed filter. -/
def filter1 : vpKalmanFilter (List ℚ) (List (List ℚ)) Unit :=
  (vpKalmanFilter.construct base1 .stateConstAccWithColoredNoise_MeasureVel).setStateModel
    .stateConstVel_MeasurePos

/-- A base object for two channels: the blocks of `base1` repeated on the diagonal. -/
def base2 : vpKalman (List ℚ) (List (List ℚ)) Unit where
  size_state := 0
  size_measure := 0
  nsignal := 2
  F := [[1, 1, 0, 0], [0, 1, 0, 0], [0, 0, 1, 1], [0, 0, 0, 1]]
  H := [[1, 0, 0, 0], [0, 0, 1, 0]]
  Q := [[0, 0, 0, 0], [0, 1, 0, 0], [0, 0, 0, 0], [0, 0, 0, 1]]
  R := [[1, 0], [0, 1]]
  Xest := [0, 0, 0, 0]
  Pest := [[1, 0, 0, 0], [0, 1, 0, 0], [0, 0, 1, 0], [0, 0, 0, 1]]
  other := ()

/-- Two channels of `stateConstVel_MeasurePos`: stacked measure size 2, stacked state
size 4. -/
def filter2 : vpKalmanFilter (List ℚ) (List (List ℚ)) Unit :=
  (vpKalmanFilter.construct base2 .unknown).setStateModel .stateConstVel_MeasurePos

/-- Sample initializers: each records the channel count and selects its own model; the
matrices stay as they are. -/
def inits : vpModelInitializers ℚ (List ℚ) (List (List ℚ)) Unit where
  initStateConstVel_MeasurePos := fun self n _ _ _ =>
    vpKalmanFilter.setStateModel { self with nsignal := n } .stateConstVel_MeasurePos
  initStateConstVelWithColoredNoise_MeasureVel := fun self n _ _ _ =>
    vpKalmanFilter.setStateModel { self with nsignal := n }
      .stateConstVelWithColoredNoise_MeasureVel
  initStateConstAccWithColoredNoise_MeasureVel := fun self n _ _ _ _ =>
    vpKalmanFilter.setStateModel { self with nsignal := n }
      .stateConstAccWithColoredNoise_MeasureVel

end Example

/-! ## Closed forms used to state the filter step

The quantities of section 4.3 of the specification, written from its words as functions of
the filter before the call. -/

section ClosedForms

variable {α V M O : Type}

/-- Predicted state `F·x`. -/
def vpKalmanFilter.predictedState (LA : vpLinAlg α V M) (self : vpKalmanFilter V M O) :
    V :=
  LA.mulVec self.F self.Xest

/-- Predicted covariance `F·P·Fᵀ + Q`. -/
def vpKalmanFilter.predictedCovariance (LA : vpLinAlg α V M)
    (self : vpKalmanFilter V M O) : M :=
  LA.add (LA.mul (LA.mul self.F self.Pest) (LA.transpose self.F)) self.Q

/-- Innovation `z − H·(F·x)`. -/
def vpKalmanFilter.innovation (LA : vpLinAlg α V M) (self : vpKalmanFilter V M O) (z : V) :
    V :=
  LA.vsub z (LA.mulVec self.H (self.predictedState LA))

/-- Innovation covariance `H·(F·P·Fᵀ + Q)·Hᵀ + R`. -/
def vpKalmanFilter.innovationCovariance (LA : vpLinAlg α V M) (self : vpKalmanFilter V M O) :
    M :=
  LA.add (LA.mul (LA.mul self.H (self.predictedCovariance LA)) (LA.transpose self.H)) self.R

/-- Gain `(F·P·Fᵀ + Q)·Hᵀ·Sinv` for a given inverse `Sinv` of the innovation covariance. -/
def vpKalmanFilter.gain (LA : vpLinAlg α V M) (self : vpKalmanFilter V M O) (Sinv : M) :
    M :=
  LA.mul (LA.mul (self.predictedCovariance LA) (LA.transpose self.H)) Sinv

end ClosedForms

/-! ## Theorems: the state model catalog -/

section CatalogTheorems

variable {V M O : Type}

/-- Every call of `setStateModel` leaves sizes that agree with the stored model. -/
theorem setStateModel_agrees (self : vpKalmanFilter V M O) (m : vpStateModel) :
    ((self.setStateModel m).size_state, (self.setStateModel m).size_measure)
      = specSizeTable (self.setStateModel m).model := by
  cases m <;> rfl

/-- Agreement of sizes and model survives any sequence of `setStateModel` calls. -/
theorem setStateModels_agrees (models : List vpStateModel) :
    ∀ self : vpKalmanFilter V M O,
      (self.size_state, self.size_measure) = specSizeTable self.model →
      ((self.setStateModels models).size_state, (self.setStateModels models).size_measure)
        = specSizeTable (self.setStateModels models).model := by
  induction models with
  | nil => intro self h; exact h
  | cons m ms ih =>
    intro self _
    exact ih (self.setStateModel m) (setStateModel_agrees self m)

/-- The model stored after a sequence of calls that ends with `m` is `m`. -/
theorem setStateModels_snoc (models : List vpStateModel) (m : vpStateModel)
    (self : vpKalmanFilter V M O) :
    self.setStateModels (models ++ [m]) = (self.setStateModels models).setStateModel m := by
  simp [vpKalmanFilter.setStateModels, List.foldl_append]

/-- C1: for every state model `m` and every prior filter state, after `setStateModel(m)` the
pair (state size, measure size) is the table entry for `m`: `(2,1)` for
`stateConstVel_MeasurePos` and `stateConstVelWithColoredNoise_MeasureVel`, `(3,1)` for
`stateConstAccWithColoredNoise_MeasureVel`, `(0,0)` for `unknown`. -/
theorem setStateModel_sizes_table (self : vpKalmanFilter V M O) (m : vpStateModel) :
    ((self.setStateModel m).size_state, (self.setStateModel m).size_measure) = specSizeTable m
    ∧ ((self.setStateModel .stateConstVel_MeasurePos).size_state,
        (self.setStateModel .stateConstVel_MeasurePos).size_measure) = (2, 1)
    ∧ ((self.setStateModel .stateConstVelWithColoredNoise_MeasureVel).size_state,
        (self.setStateModel .stateConstVelWithColoredNoise_MeasureVel).size_measure) = (2, 1)
    ∧ ((self.setStateModel .stateConstAccWithColoredNoise_MeasureVel).size_state,
        (self.setStateModel .stateConstAccWithColoredNoise_MeasureVel).size_measure) = (3, 1)
    ∧ ((self.setStateModel .unknown).size_state,
        (self.setStateModel .unknown).size_measure) = (0, 0) := by
  refine ⟨?_, rfl, rfl, rfl, rfl⟩
  cases m <;> rfl

/-- C2: in every filter state reached from the default constructor by a finite sequence of
`setStateModel` calls, the stored pair `(size_state, size_measure)` is the table pair of the
stored model. -/
theorem reachable_sizes_agree_with_model (base : vpKalman V M O) (indeterminate : vpStateModel)
    (models : List vpStateModel) :
    (((vpKalmanFilter.construct base indeterminate).setStateModels models).size_state,
      ((vpKalmanFilter.construct base indeterminate).setStateModels models).size_measure)
      = specSizeTable
          ((vpKalmanFilter.construct base indeterminate).setStateModels models).model :=
  setStateModels_agrees models _
    (setStateModel_agrees { base with model := indeterminate } .unknown)

/-- C3: a default-constructed filter is in the unknown configuration: `getStateModel()`
returns `unknown` and both sizes are 0, whatever the base-class constructor left in the
object and whatever the uninitialised member held. -/
theorem construct_unknown (base : vpKalman V M O) (indeterminate : vpStateModel) :
    (vpKalmanFilter.construct base indeterminate).getStateModel.1 = .unknown
    ∧ (vpKalmanFilter.construct base indeterminate).size_state = 0
    ∧ (vpKalmanFilter.construct base indeterminate).size_measure = 0 :=
  ⟨rfl, rfl, rfl⟩

/-- C4: `getStateModel` reflects the last model selection: after `setStateModel(m)` it
returns `m`; after any sequence of calls ending with `m` it returns `m`; and calling it
leaves the filter unchanged. -/
theorem getStateModel_last_selection (self : vpKalmanFilter V M O) (m : vpStateModel)
    (models : List vpStateModel) :
    (self.setStateModel m).getStateModel.1 = m
    ∧ (self.setStateModels (models ++ [m])).getStateModel.1 = m
    ∧ self.getStateModel.2 = self := by
  refine ⟨?_, ?_, rfl⟩
  · cases m <;> rfl
  · rw [setStateModels_snoc]
    cases m <;> rfl

/-- C5: `setStateModel(m)` changes only the model and the two size members: the object after
the call is the object before it with these three members replaced, so `F`, `H`, `Q`, `R`,
the estimate `x`, the covariance `P`, the channel count and every other base member are as
before. -/
theorem setStateModel_frame (self : vpKalmanFilter V M O) (m : vpStateModel) :
    self.setStateModel m
      = { self with
          model := m
          size_state := (specSizeTable m).1
          size_measure := (specSizeTable m).2 }
    ∧ (self.setStateModel m).F = self.F
    ∧ (self.setStateModel m).H = self.H
    ∧ (self.setStateModel m).Q = self.Q
    ∧ (self.setStateModel m).R = self.R
    ∧ (self.setStateModel m).Xest = self.Xest
    ∧ (self.setStateModel m).Pest = self.Pest
    ∧ (self.setStateModel m).nsignal = self.nsignal
    ∧ (self.setStateModel m).other = self.other := by
  cases m <;> exact ⟨rfl, rfl, rfl, rfl, rfl, rfl, rfl, rfl, rfl⟩

/-- C9: after `setStateModel(m)` the filter is inert exactly when the model is unknown: the
state size is 0 iff the measure size is 0 iff `m = unknown`; for every other model the
measure size is 1 and the state size is strictly greater than the measure size. -/
theorem setStateModel_inert_iff_unknown (self : vpKalmanFilter V M O) (m : vpStateModel) :
    ((self.setStateModel m).size_state = 0 ↔ (self.setStateModel m).size_measure = 0)
    ∧ ((self.setStateModel m).size_measure = 0 ↔ m = .unknown)
    ∧ ((self.setStateModel m).size_state = 0 ↔ m = .unknown)
    ∧ (m ≠ .unknown →
        (self.setStateModel m).size_measure = 1
        ∧ (self.setStateModel m).size_measure < (self.setStateModel m).size_state) := by
  cases m <;> simp [vpKalmanFilter.setStateModel]

/-- C9, closed example: selecting `stateConstAccWithColoredNoise_MeasureVel` on a
default-constructed filter gives measure size 1, below the state size. -/
theorem setStateModel_inert_iff_unknown_witness :
    ((vpKalmanFilter.construct Example.base1 .unknown).setStateModel
        .stateConstAccWithColoredNoise_MeasureVel).size_measure = 1
    ∧ ((vpKalmanFilter.construct Example.base1 .unknown).setStateModel
        .stateConstAccWithColoredNoise_MeasureVel).size_measure
      < ((vpKalmanFilter.construct Example.base1 .unknown).setStateModel
        .stateConstAccWithColoredNoise_MeasureVel).size_state :=
  (setStateModel_inert_iff_unknown (vpKalmanFilter.construct Example.base1 .unknown)
    .stateConstAccWithColoredNoise_MeasureVel).2.2.2 (by decide)

/-- C10: `setStateModel` is last-write-wins on the whole filter state: a second selection
overwrites the first, a repeated selection changes nothing, and the sizes after selecting `m`
do not depend on the state the call started from. -/
theorem setStateModel_last_write_wins (self other : vpKalmanFilter V M O)
    (m1 m2 : vpStateModel) :
    (self.setStateModel m1).setStateModel m2 = self.setStateModel m2
    ∧ (self.setStateModel m2).setStateModel m2 = self.setStateModel m2
    ∧ (self.setStateModel m2).size_state = (other.setStateModel m2).size_state
    ∧ (self.setStateModel m2).size_measure = (other.setStateModel m2).size_measure := by
  cases m1 <;> cases m2 <;> exact ⟨rfl, rfl, rfl, rfl⟩

end CatalogTheorems

/-! ## Theorems: the filter step and the generic initializer -/

section FilterTheorems

variable {α V M O : Type}

/-- C6: for a filter whose model is not `unknown` and a measurement `z` of the stacked
measure size, `filter(z)` succeeds with exactly one predict-then-update step, the update
working on the predicted values: `x` becomes `F·x + K·(z − H·F·x)` and `P` becomes
`(I − K·H)·(F·P·Fᵀ + Q)` with `S = H·(F·P·Fᵀ + Q)·Hᵀ + R` and `K = (F·P·Fᵀ + Q)·Hᵀ·S⁻¹`,
where `Sinv` is the inverse of `S` the primitives return; every other member is as
before. -/
theorem filter_predict_then_update (LA : vpLinAlg α V M) (self : vpKalmanFilter V M O) (z : V)
    (Sinv : M) (hmodel : self.model ≠ .unknown)
    (hz : LA.size z = self.stackedMeasureSize)
    (hS : LA.inverse (self.innovationCovariance LA) = some Sinv) :
    self.filter LA z
      = (.ok (),
          { self with
            Xest := LA.vadd (self.predictedState LA)
              (LA.mulVec (self.gain LA Sinv) (self.innovation LA z))
            Pest := LA.mul
              (LA.sub (LA.identity self.stackedStateSize) (LA.mul (self.gain LA Sinv) self.H))
              (self.predictedCovariance LA) }) := by
  have hS' : LA.inverse
      (LA.add (LA.mul (LA.mul self.H
        (LA.add (LA.mul (LA.mul self.F self.Pest) (LA.transpose self.F)) self.Q))
        (LA.transpose self.H)) self.R) = some Sinv := hS
  simp only [vpKalmanFilter.filter, hmodel, hz, ne_eq, not_true_eq_false, or_self, if_false,
    vpKalmanFilter.update, vpKalmanFilter.predict, hS']
  rfl

/-- C6, closed example: one channel of `stateConstVel_MeasurePos` with `x = 0`, `P = I` and
the measurement `z = [1]`; `S = [[3]]`, and the step leaves `x = [2/3, 1/3]`,
`P = [[2/3, 1/3], [1/3, 5/3]]`. -/
theorem filter_predict_then_update_witness :
    Example.filter1.model ≠ .unknown
    ∧ Dense.linAlg.size ([1] : List ℚ) = Example.filter1.stackedMeasureSize
    ∧ Dense.linAlg.inverse (Example.filter1.innovationCovariance Dense.linAlg)
        = some [[1 / 3]]
    ∧ Example.filter1.filter Dense.linAlg [1]
        = (.ok (),
            { Example.filter1 with
              Xest := [2 / 3, 1 / 3]
              Pest := [[2 / 3, 1 / 3], [1 / 3, 5 / 3]] }) :=
  ⟨by decide, by decide, by with_unfolding_all rfl,
    (filter_predict_then_update Dense.linAlg Example.filter1 [1] [[1 / 3]] (by decide)
      (by decide) (by with_unfolding_all rfl)).trans (by with_unfolding_all rfl)⟩

/-- C7: `filter(z)` fails with a usage error and leaves the filter, in particular `x` and
`P`, as it was whenever the model is `unknown` or the number of components of `z` differs from
the stacked measure size `nsignal × size_measure`. -/
theorem filter_rejects_unconfigured_or_wrong_length (LA : vpLinAlg α V M)
    (self : vpKalmanFilter V M O) (z : V)
    (h : self.model = .unknown ∨ LA.size z ≠ self.stackedMeasureSize) :
    self.filter LA z = (.error .usageError, self)
    ∧ (self.filter LA z).2.Xest = self.Xest
    ∧ (self.filter LA z).2.Pest = self.Pest := by
  have hf : self.filter LA z = (.error .usageError, self) := by
    simp only [vpKalmanFilter.filter, if_pos h]
  exact ⟨hf, by rw [hf], by rw [hf]⟩

/-- C7, closed example: two channels of `stateConstVel_MeasurePos` give the stacked measure
size 2; a measurement with 3 components is rejected and `x` is unchanged. -/
theorem filter_rejects_witness :
    Example.filter2.stackedMeasureSize = 2
    ∧ Dense.linAlg.size ([1, 2, 3] : List ℚ) = 3
    ∧ Example.filter2.filter Dense.linAlg [1, 2, 3] = (.error .usageError, Example.filter2)
    ∧ (Example.filter2.filter Dense.linAlg [1, 2, 3]).2.Xest = [0, 0, 0, 0] :=
  have h := filter_rejects_unconfigured_or_wrong_length Dense.linAlg Example.filter2 [1, 2, 3]
    (Or.inr (by decide))
  ⟨by decide, by decide, h.1, h.2.1.trans rfl⟩

/-- The rejection test of `initFilter` answers `true` exactly on the listed configuration
errors. -/
theorem configurationRejected_iff [LinearOrderedField α] (LA : vpLinAlg α V M)
    (self : vpKalmanFilter V M O) (nsignal : Int) (sigma_state sigma_measure : V)
    (rho dt : α) :
    self.configurationRejected LA nsignal sigma_state sigma_measure rho dt = true
      ↔ (self.model = .unknown ∨ nsignal < 1
          ∨ (∃ sigma ∈ LA.entries sigma_state, sigma < 0)
          ∨ (∃ sigma ∈ LA.entries sigma_measure, sigma < 0)
          ∨ (self.model.coloredNoise = true ∧ 1 ≤ |rho|)
          ∨ dt ≤ 0) := by
  simp only [vpKalmanFilter.configurationRejected, Bool.or_eq_true, Bool.and_eq_true,
    decide_eq_true_eq, List.any_eq_true, or_assoc]

/-- C8: `initFilter(nsignal, sigma_state, sigma_measure, rho, dt)` fails with a configuration
error and keeps the filter as it was if the current model is `unknown`, if `nsignal < 1`, if
a noise standard deviation is negative, or if `|rho| ≥ 1` for a colored-noise model; on a
configuration with none of the configuration errors it succeeds with the result of the
model-specific initializer that matches the current model. -/
theorem initFilter_rejects_or_dispatches [LinearOrderedField α] (LA : vpLinAlg α V M)
    (inits : vpModelInitializers α V M O) (self : vpKalmanFilter V M O) (nsignal : Int)
    (sigma_state sigma_measure : V) (rho dt : α) :
    ((self.model = .unknown ∨ nsignal < 1
        ∨ (∃ sigma ∈ LA.entries sigma_state, sigma < 0)
        ∨ (∃ sigma ∈ LA.entries sigma_measure, sigma < 0)
        ∨ (self.model.coloredNoise = true ∧ 1 ≤ |rho|)) →
      self.initFilter LA inits nsignal sigma_state sigma_measure rho dt
        = (.error .configurationError, self))
    ∧ ((1 ≤ nsignal ∧ (∀ sigma ∈ LA.entries sigma_state, 0 ≤ sigma)
          ∧ (∀ sigma ∈ LA.entries sigma_measure, 0 ≤ sigma)
          ∧ (self.model.coloredNoise = true → |rho| < 1) ∧ 0 < dt) →
        (self.model = .stateConstVel_MeasurePos →
          self.initFilter LA inits nsignal sigma_state sigma_measure rho dt
            = (.ok (), inits.initStateConstVel_MeasurePos self nsignal sigma_state
                sigma_measure dt))
        ∧ (self.model = .stateConstVelWithColoredNoise_MeasureVel →
          self.initFilter LA inits nsignal sigma_state sigma_measure rho dt
            = (.ok (), inits.initStateConstVelWithColoredNoise_MeasureVel self nsignal
                sigma_state sigma_measure rho))
        ∧ (self.model = .stateConstAccWithColoredNoise_MeasureVel →
          self.initFilter LA inits nsignal sigma_state sigma_measure rho dt
            = (.ok (), inits.initStateConstAccWithColoredNoise_MeasureVel self nsignal
                sigma_state sigma_measure rho dt))) := by
  constructor
  · intro h
    have hr : self.configurationRejected LA nsignal sigma_state sigma_measure rho dt = true := by
      rw [configurationRejected_iff]
      have hdt : (self.model = .unknown ∨ nsignal < 1
          ∨ (∃ sigma ∈ LA.entries sigma_state, sigma < 0)
          ∨ (∃ sigma ∈ LA.entries sigma_measure, sigma < 0)
          ∨ (self.model.coloredNoise = true ∧ 1 ≤ |rho|)) ∨ dt ≤ 0 := Or.inl h
      simpa only [or_assoc] using hdt
    simp only [vpKalmanFilter.initFilter, hr, if_true]
  · rintro ⟨hn, hs, hm, hrho, hdt⟩
    have hr : ∀ hk : self.model ≠ .unknown,
        self.configurationRejected LA nsignal sigma_state sigma_measure rho dt = false := by
      intro hk
      rw [Bool.eq_false_iff, ne_eq, configurationRejected_iff]
      rintro (h | h | ⟨sigma, hmem, hlt⟩ | ⟨sigma, hmem, hlt⟩ | ⟨hc, hge⟩ | h)
      · exact hk h
      · exact absurd hn (not_le.mpr h)
      · exact absurd (hs sigma hmem) (not_le.mpr hlt)
      · exact absurd (hm sigma hmem) (not_le.mpr hlt)
      · exact absurd (hrho hc) (not_lt.mpr hge)
      · exact absurd hdt (not_lt.mpr h)
    refine ⟨?_, ?_, ?_⟩ <;> intro hk
    all_goals
      have hr' := hr (by rw [hk]; decide)
      simp only [vpKalmanFilter.initFilter, hr', hk]
      rfl

/-- C8, closed example: on the unknown model, with no channel, with a negative standard
deviation and with `rho = 1` on a colored-noise model the call fails and the filter is kept;
on one channel of `stateConstVel_MeasurePos` with valid arguments the call runs
`initStateConstVel_MeasurePos`. -/
theorem initFilter_rejects_or_dispatches_witness :
    (vpKalmanFilter.construct Example.base1 .unknown).initFilter Dense.linAlg Example.inits
        1 [1] [1] (1 / 2) 1
      = (.error .configurationError, vpKalmanFilter.construct Example.base1 .unknown)
    ∧ Example.filter1.initFilter Dense.linAlg Example.inits 0 [1] [1] (1 / 2) 1
      = (.error .configurationError, Example.filter1)
    ∧ Example.filter1.initFilter Dense.linAlg Example.inits 1 [1] [-1] (1 / 2) 1
      = (.error .configurationError, Example.filter1)
    ∧ (Example.filter1.setStateModel .stateConstVelWithColoredNoise_MeasureVel).initFilter
        Dense.linAlg Example.inits 1 [1] [1] 1 1
      = (.error .configurationError,
          Example.filter1.setStateModel .stateConstVelWithColoredNoise_MeasureVel)
    ∧ Example.filter1.initFilter Dense.linAlg Example.inits 1 [1] [1] (1 / 2) 1
      = (.ok (),
          Example.inits.initStateConstVel_MeasurePos Example.filter1 1 [1] [1] 1) :=
  ⟨(initFilter_rejects_or_dispatches Dense.linAlg Example.inits
      (vpKalmanFilter.construct Example.base1 .unknown) 1 [1] [1] (1 / 2) 1).1
      (Or.inl rfl),
    (initFilter_rejects_or_dispatches Dense.linAlg Example.inits Example.filter1
      0 [1] [1] (1 / 2) 1).1 (Or.inr (Or.inl (by decide))),
    (initFilter_rejects_or_dispatches Dense.linAlg Example.inits Example.filter1
      1 [1] [-1] (1 / 2) 1).1
      (Or.inr (Or.inr (Or.inr (Or.inl ⟨-1, by simp [Dense.linAlg], by norm_num⟩)))),
    (initFilter_rejects_or_dispatches Dense.linAlg Example.inits
      (Example.filter1.setStateModel .stateConstVelWithColoredNoise_MeasureVel)
      1 [1] [1] 1 1).1
      (Or.inr (Or.inr (Or.inr (Or.inr ⟨rfl, by norm_num⟩)))),
    ((initFilter_rejects_or_dispatches Dense.linAlg Example.inits Example.filter1
      1 [1] [1] (1 / 2) 1).2
      ⟨by decide, by simp [Dense.linAlg], by simp [Dense.linAlg],
        fun h => absurd h (by decide), by norm_num⟩).1 rfl⟩

end FilterTheorems
